import Mathlib

/-!
Shallow embedding of the blog-api repository (Django + DRF blogging backend)
and proofs about its behavior.  Each definition is translated from a named
place in the source tree; machine-level concerns (HTTP parsing, the ORM, the
Redis client, password hashing, ISO-8601 formatting) are modelled by explicit
functions at the boundary, as noted in the doc comments.
-/

namespace BlogApi

/- ===================== Data model ===================== -/

/-- Embeds CustomUser (src/apps/users/models.py:98-143): email is the unique
login identifier; password is stored hashed; is_active defaults true,
is_staff false. -/
structure User where
  id : Nat
  email : String
  full_name : String
  passwordHash : String
  is_active : Bool
  is_staff : Bool
  is_superuser : Bool
deriving Repr, DecidableEq

/-- Embeds Post.Status (src/apps/blog/models.py:89-91): draft or published,
default draft. -/
inductive PostStatus
  | draft
  | published
deriving Repr, DecidableEq

/-- Embeds Category (src/apps/blog/models.py:17-39). -/
structure Category where
  id : Nat
  name : String
  slug : String
deriving Repr, DecidableEq

/-- Embeds Tag (src/apps/blog/models.py:42-57). -/
structure Tag where
  id : Nat
  name : String
  slug : String
deriving Repr, DecidableEq

/-- Embeds Post (src/apps/blog/models.py:60-106).  Timestamps are modelled as
Nat; categoryId models the nullable ForeignKey; tags the many-to-many ids. -/
structure Post where
  id : Nat
  authorId : Nat
  title : String
  slug : String
  body : String
  categoryId : Option Nat
  tags : List Nat
  status : PostStatus
  created_at : Nat
  updated_at : Nat
deriving Repr, DecidableEq

/-- Embeds Comment (src/apps/blog/models.py:109-129): a required post
reference, a required author reference, a body and a creation timestamp. -/
structure Comment where
  id : Nat
  postId : Nat
  authorId : Nat
  body : String
  created_at : Nat
deriving Repr, DecidableEq

/-- The relational store shared by all endpoints and commands: one table per
entity of the data model. -/
structure DB where
  users : List User
  categories : List Category
  tags : List Tag
  posts : List Post
  comments : List Comment
deriving Repr, DecidableEq

/-- Looks a user up by primary key, as CustomUser.objects.get(pk=pk). -/
def findUser (db : DB) (pk : Nat) : Option User :=
  db.users.find? (fun u => u.id == pk)

/-- Looks a post up by primary key. -/
def findPost (db : DB) (pid : Nat) : Option Post :=
  db.posts.find? (fun p => p.id == pid)

/- ===================== Boundary models ===================== -/

/-- Model of the salted password hash written by set_password (the claims only
need that hashing is deterministic and that distinct raw passwords give
distinct hashes, which the prefix encoding provides). -/
def hashPassword (raw : String) : String := "pbkdf2$" ++ raw

/-- Model of check_password: the stored value is the hash of the raw input. -/
def checkPassword (raw stored : String) : Bool := stored == hashPassword raw

/-- Model of datetime.isoformat over the Nat-encoded timestamps of this
embedding. -/
def isoformat (t : Nat) : String := "iso$" ++ toString t

/-- An access/refresh token pair, as issued by RefreshToken.for_user. -/
structure TokenPair where
  access : String
  refresh : String
deriving Repr, DecidableEq

/-- Model of RefreshToken.for_user (the JWT library boundary). -/
def tokensFor (u : User) : TokenPair :=
  { access := "access$" ++ toString u.id, refresh := "refresh$" ++ toString u.id }

/- ===================== Slugification ===================== -/

/-- Characters kept by django.utils.text.slugify before collapsing: word
characters, whitespace and hyphens (the ASCII model of its first regex). -/
def keepChar (c : Char) : Bool :=
  c.isAlphanum || c == '_' || c == '-' || c == ' '

/-- Collapses every run of spaces and hyphens to a single hyphen, as the
second slugify regex does; the Bool records whether the previous kept
character already was a separator. -/
def collapseAux : Bool → List Char → List Char
  | _, [] => []
  | prevSep, c :: cs =>
    if c == ' ' || c == '-' then
      if prevSep then collapseAux true cs
      else '-' :: collapseAux true cs
    else c :: collapseAux false cs

/-- Leading and trailing characters stripped by slugify. -/
def isStripChar (c : Char) : Bool := c == '-' || c == '_'

/-- Removes leading and trailing hyphens and underscores. -/
def stripEnds (l : List Char) : List Char :=
  ((l.dropWhile isStripChar).reverse.dropWhile isStripChar).reverse

/-- Embeds django.utils.text.slugify: lower-case, drop non-word characters,
collapse whitespace and hyphen runs to single hyphens, strip the ends. -/
def slugify (s : String) : String :=
  String.mk (stripEnds (collapseAux false ((s.data.map Char.toLower).filter keepChar)))

/-- Embeds the slug collision loop of Command._generate_posts
(src/apps/blog/management/commands/generate_blog.py:358-367), also used for
categories and tags: while the candidate is taken, try original-counter with
the counter incremented.  The fuel argument bounds the loop; existing is
finite, so length + 1 attempts always reach a fresh suffix. -/
def uniqueSlugAux (original : String) (existing : List String) :
    Nat → Nat → String → String
  | 0, _, slug => slug
  | fuel + 1, counter, slug =>
    if slug ∈ existing then
      uniqueSlugAux original existing fuel (counter + 1)
        (original ++ "-" ++ toString counter)
    else slug

/-- The generator's slug scheme: slugify the title, then resolve collisions
with numeric suffixes starting at 1. -/
def uniqueSlug (title : String) (existing : List String) : String :=
  uniqueSlugAux (slugify title) existing (existing.length + 1) 1 (slugify title)

/- ===================== Comment events ===================== -/

/-- A primitive JSON field value of a published event payload. -/
inductive JField
  | s (v : String)
  | n (v : Nat)
deriving Repr, DecidableEq

/-- A JSON event message as published on the pub/sub channel: the event kind,
an optional top-level epoch timestamp, and the data payload as an ordered
field list. -/
structure Event where
  event : String
  timestamp : Option Nat
  data : List (String × JField)
deriving Repr, DecidableEq

/-- Embeds the event_data built by published_comment_event
(src/apps/blog/views.py:83-92): kind comment_published, no top-level
timestamp, and a payload of comment_id, post_id, author_id, the full body
under the key content, and the ISO creation timestamp. -/
def publishedCommentEventData (c : Comment) (p : Post) (a : User) : Event :=
  { event := "comment_published"
    timestamp := none
    data := [("comment_id", .n c.id), ("post_id", .n p.id),
             ("author_id", .n a.id), ("content", .s c.body),
             ("created_at", .s (isoformat c.created_at))] }

/-- Embeds published_comment_event (src/apps/blog/views.py:78-107): the redis
publish is wrapped in try/except, so a failing client (redisOk = false) is
logged and publishes nothing; it never raises to the caller.  The returned
list holds the (channel, message) pairs actually published. -/
def publishedCommentEvent (redisOk : Bool) (c : Comment) (p : Post) (a : User) :
    List (String × Event) :=
  if redisOk then [("comments", publishedCommentEventData c p a)] else []

/-- Embeds the event built per comment by Command._publish_comment_events
(src/apps/blog/management/commands/generate_blog.py:495-507): kind
comment_created, an epoch timestamp, and a payload of id, post_id,
post_title, author_id, author_name, the body truncated to 100 characters,
and the ISO creation timestamp. -/
def generatorCommentEvent (c : Comment) (p : Post) (a : User) (now : Nat) :
    Event :=
  { event := "comment_created"
    timestamp := some now
    data := [("id", .n c.id), ("post_id", .n p.id), ("post_title", .s p.title),
             ("author_id", .n a.id), ("author_name", .s a.full_name),
             ("body", .s (String.mk (c.body.data.take 100))),
             ("created_at", .s (isoformat c.created_at))] }

/-- Embeds Command._publish_comment_events
(src/apps/blog/management/commands/generate_blog.py:481-519): one publish per
comment inside a per-comment try/except; a failing publish (failsOn the
comment id) is logged and skipped, the loop continues.  The comments carry
their in-memory post and author objects, as in the generator.  Returns the
published count and the (channel, message) pairs, in order. -/
def publishCommentEvents (now : Nat) (failsOn : Nat → Bool) :
    List (Comment × Post × User) → Nat × List (String × Event)
  | [] => (0, [])
  | t :: ts =>
    let rest := publishCommentEvents now failsOn ts
    if failsOn t.1.id then rest
    else (rest.1 + 1, ("comments", generatorCommentEvent t.1 t.2.1 t.2.2 now) :: rest.2)

/- ===================== Blog serializers ===================== -/

/-- Embeds validate_title, identical in CreatePostSerializer
(src/apps/blog/serializers.py:111-114) and EditPostSerializer
(src/apps/blog/serializers.py:152-155). -/
def validate_title (value : String) : Except String String :=
  if value.length < 5 then .error "Title must be at least 5 characters long"
  else .ok value

/-- Embeds EditCommentSerializer.validate_body
(src/apps/blog/serializers.py:214-217). -/
def validate_body (value : String) : Except String String :=
  if value.length < 3 then .error "Comment must be at least 3 characters long"
  else .ok value

/-- Embeds the writable surface of CommentSerializer
(src/apps/blog/serializers.py:172-204): body is the only writable field, a
required non-blank text field; the serializer declares no length
validator. -/
def commentSerializerValidate (body : String) : List (String × String) :=
  if body = "" then [("body", "This field may not be blank.")] else []

/-- Input accepted by CreatePostSerializer
(src/apps/blog/serializers.py:87-109): title, body, an optional nullable
category reference, tag references, and an optional status defaulting to the
model's draft default. -/
structure CreatePostInput where
  title : String
  body : String
  category : Option Nat
  tags : List Nat
  status : Option PostStatus
deriving Repr, DecidableEq

/-- The title field's contribution to the serializer error map: the
validate_title outcome keyed under title. -/
def titleErrs (t : String) : List (String × String) :=
  match validate_title t with
  | .error m => [("title", m)]
  | .ok _ => []

/-- The body field's contribution: a required text field may not be blank. -/
def bodyErrs (b : String) : List (String × String) :=
  if b = "" then [("body", "This field may not be blank.")] else []

/-- The category PrimaryKeyRelatedField's contribution: a present reference
must name an existing category; null is allowed. -/
def categoryErrs (db : DB) (c : Option Nat) : List (String × String) :=
  match c with
  | some cid =>
    if db.categories.any (fun cat => cat.id == cid) then []
    else [("category", "Invalid pk")]
  | none => []

/-- The tags PrimaryKeyRelatedField's contribution: every referenced tag must
exist. -/
def tagsErrs (db : DB) (ids : List Nat) : List (String × String) :=
  if ids.all (fun i => db.tags.any (fun t => t.id == i)) then []
  else [("tags", "Invalid pk")]

/-- Field validation run by CreatePostSerializer.is_valid: the title length
rule, body required non-blank, and the PrimaryKeyRelatedField existence
checks for category and tags.  Returns the field-keyed error list, empty
when valid. -/
def createPostValidate (db : DB) (inp : CreatePostInput) :
    List (String × String) :=
  titleErrs inp.title ++ bodyErrs inp.body ++
    categoryErrs db inp.category ++ tagsErrs db inp.tags

/-- Embeds CreatePostSerializer.create (src/apps/blog/serializers.py:116-125):
validated_data holds title, body, category, tags and status only; slug is not
among the serializer's fields and is never assigned, so Post.objects.create
stores the SlugField's empty-string default, and the database's unique
constraint on slug raises IntegrityError when another post already carries
the same (empty) slug. -/
def createPostSerializerSave (db : DB) (author : User) (inp : CreatePostInput)
    (newId now : Nat) : Except String (Post × DB) :=
  let p : Post :=
    { id := newId, authorId := author.id, title := inp.title, slug := ""
      body := inp.body, categoryId := inp.category, tags := inp.tags
      status := inp.status.getD .draft, created_at := now, updated_at := now }
  if db.posts.any (fun q => q.slug == p.slug) then
    .error "IntegrityError: duplicate key value violates unique constraint on slug"
  else .ok (p, { db with posts := db.posts ++ [p] })

/-- Partial-update input accepted by EditPostSerializer
(src/apps/blog/serializers.py:128-150): every field may be omitted; a present
category is itself nullable. -/
structure EditPostInput where
  title : Option String
  body : Option String
  category : Option (Option Nat)
  tags : Option (List Nat)
  status : Option PostStatus
deriving Repr, DecidableEq

/-- Applies a field's validator only when the partial update supplies the
field. -/
def whenPresent {α : Type} (errs : α → List (String × String)) :
    Option α → List (String × String)
  | some v => errs v
  | none => []

/-- Field validation run by EditPostSerializer.is_valid on a partial update:
the title length rule and the related-field existence checks, each applied
only when the field is present. -/
def editPostValidate (db : DB) (inp : EditPostInput) : List (String × String) :=
  whenPresent titleErrs inp.title ++ whenPresent bodyErrs inp.body ++
    whenPresent (categoryErrs db) inp.category ++
    whenPresent (tagsErrs db) inp.tags

/-- Embeds EditPostSerializer.update (src/apps/blog/serializers.py:157-169):
each omitted field keeps the instance value; a supplied tag list (even empty)
replaces the old set; an omitted tag list is preserved; save refreshes
updated_at. -/
def applyEdit (post : Post) (inp : EditPostInput) (now : Nat) : Post :=
  { post with
    title := inp.title.getD post.title
    body := inp.body.getD post.body
    categoryId := match inp.category with
                  | some c => c
                  | none => post.categoryId
    status := inp.status.getD post.status
    tags := inp.tags.getD post.tags
    updated_at := now }

/- ===================== Blog views ===================== -/

/-- Outcome of the post list endpoint, carrying the serialized posts. -/
structure ListResponse where
  posts : List Post
  total_posts : Nat
deriving Repr, DecidableEq

/-- Embeds PostViewSet.list (src/apps/blog/views.py:137-195).  An
authenticated caller gets the database filter status = published OR author =
caller.  An anonymous caller first consults the published_posts cache entry
(a Python truthiness test, so an empty cached list also counts as a miss) and
otherwise queries the posts whose status is published. -/
def postList (db : DB) (actor : Option User)
    (cachedPublished : Option (List Post)) : ListResponse :=
  match actor with
  | some u =>
    let qs := db.posts.filter
      (fun p => p.status == PostStatus.published || p.authorId == u.id)
    { posts := qs, total_posts := qs.length }
  | none =>
    let cached := cachedPublished.getD []
    if cached.isEmpty then
      let qs := db.posts.filter (fun p => p.status == PostStatus.published)
      { posts := qs, total_posts := qs.length }
    else { posts := cached, total_posts := cached.length }

/-- Outcome of the post create endpoint (src/apps/blog/views.py:197-243).
serverError stands for an unhandled Python exception reaching the framework
(here the IntegrityError raised by the slug unique constraint). -/
inductive CreateResult
  | created201 (p : Post)
  | badRequest400 (errors : List (String × String))
  | unauthorized401
  | rateLimited429
  | serverError
deriving Repr, DecidableEq

/-- Embeds PostViewSet.create (src/apps/blog/views.py:197-243): the
is_rate_limited check (20 per window, keyed on the client's counter rlCount),
the authentication check, CreatePostSerializer validation, and
serializer.save(author=request.user). -/
def postCreate (db : DB) (actor : Option User) (inp : CreatePostInput)
    (rlCount newId now : Nat) : CreateResult × DB :=
  if 20 ≤ rlCount then (.rateLimited429, db)
  else
    match actor with
    | none => (.unauthorized401, db)
    | some u =>
      let errs := createPostValidate db inp
      if errs.isEmpty then
        match createPostSerializerSave db u inp newId now with
        | .ok (p, db') => (.created201 p, db')
        | .error _ => (.serverError, db)
      else (.badRequest400 errs, db)

/-- Outcome of the post update and destroy endpoints. -/
inductive MutateResult
  | ok200 (p : Post)
  | deleted204
  | badRequest400 (errors : List (String × String))
  | unauthorized401 (msg : String)
  | notFound404
deriving Repr, DecidableEq

/-- Embeds PostViewSet.update (src/apps/blog/views.py:274-337): 401 for an
anonymous caller, 404 for an unknown slug, 401 when the acting user is not
the post's author, then EditPostSerializer partial validation and save. -/
def postUpdate (db : DB) (actor : Option User) (slug : String)
    (inp : EditPostInput) (now : Nat) : MutateResult × DB :=
  match actor with
  | none => (.unauthorized401 "Authentication required to update a post", db)
  | some u =>
    match db.posts.find? (fun p => p.slug == slug) with
    | none => (.notFound404, db)
    | some post =>
      if post.authorId ≠ u.id then
        (.unauthorized401 "You do not have permission to edit this post", db)
      else
        let errs := editPostValidate db inp
        if errs.isEmpty then
          let updated := applyEdit post inp now
          (.ok200 updated,
           { db with posts :=
               db.posts.map (fun p => if p.id == post.id then updated else p) })
        else (.badRequest400 errs, db)

/-- Embeds PostViewSet.destroy (src/apps/blog/views.py:339-379): 401 for an
anonymous caller, 404 for an unknown slug, then post.delete() with the
CASCADE on the comments' post foreign key.  The handler never compares
post.author to request.user, and IsPublishedOrEdit.has_object_permission
(src/apps/blog/permissions.py:3-13) is never invoked, because this plain
ViewSet fetches the post itself and check_object_permissions only runs from
the generic get_object helper the view does not use. -/
def postDestroy (db : DB) (actor : Option User) (slug : String) :
    MutateResult × DB :=
  match actor with
  | none => (.unauthorized401 "Authentication required to delete a post", db)
  | some _ =>
    match db.posts.find? (fun p => p.slug == slug) with
    | none => (.notFound404, db)
    | some post =>
      (.deleted204,
       { db with posts := db.posts.filter (fun p => p.id != post.id)
                 comments := db.comments.filter (fun c => c.postId != post.id) })

/-- The related_name declared on the Comment.post foreign key
(src/apps/blog/models.py:113-117), which names the reverse accessor that a
Post instance exposes for its comment set. -/
def commentPostRelatedName : String := "post"

/-- Django reverse-relation attribute lookup on a Post instance: the comment
manager is reachable only under the accessor named by the declared
related_name; any other attribute name raises AttributeError, modelled as
none. -/
def postReverseManager (db : DB) (p : Post) (attr : String) :
    Option (List Comment) :=
  if attr = commentPostRelatedName then
    some (db.comments.filter (fun c => c.postId == p.id))
  else none

/-- Insertion step for ordering comments by creation timestamp descending. -/
def insertByCreatedDesc (c : Comment) : List Comment → List Comment
  | [] => [c]
  | d :: ds =>
    if d.created_at ≤ c.created_at then c :: d :: ds
    else d :: insertByCreatedDesc c ds

/-- Models order_by('-created_at'): most recent first. -/
def sortByCreatedDesc : List Comment → List Comment
  | [] => []
  | c :: cs => insertByCreatedDesc c (sortByCreatedDesc cs)

/-- Outcome of the nested comments endpoint
(src/apps/blog/views.py:381-450).  serverError stands for an unhandled Python
exception (here the AttributeError from reading post.comments). -/
inductive CommentsResult
  | ok200 (comments : List Comment)
  | created201 (c : Comment)
  | badRequest400 (errors : List (String × String))
  | unauthorized401
  | notFound404
  | serverError
deriving Repr, DecidableEq

/-- Embeds the GET branch of PostViewSet.comments
(src/apps/blog/views.py:381-414): resolve the post by slug (404 when
unknown), then read post.comments — an attribute the Post model does not
expose, since the reverse accessor is named by related_name, which is
post — and order the result by most recent first. -/
def postCommentsGet (db : DB) (slug : String) : CommentsResult :=
  match db.posts.find? (fun p => p.slug == slug) with
  | none => .notFound404
  | some post =>
    match postReverseManager db post "comments" with
    | none => .serverError
    | some cs => .ok200 (sortByCreatedDesc cs)

/-- Embeds the POST branch of PostViewSet.comments
(src/apps/blog/views.py:416-450): resolve the post by slug (404), require
authentication (401), validate through CommentSerializer (400), then save
the comment with author = acting user and post = the resolved post, publish
the comment event (fire-and-forget) and answer 201.  Returns the outcome,
the updated store, and the (channel, message) pairs published. -/
def postCommentsPost (db : DB) (actor : Option User) (slug body : String)
    (newId now : Nat) (redisOk : Bool) :
    CommentsResult × DB × List (String × Event) :=
  match db.posts.find? (fun p => p.slug == slug) with
  | none => (.notFound404, db, [])
  | some post =>
    match actor with
    | none => (.unauthorized401, db, [])
    | some u =>
      let errs := commentSerializerValidate body
      if errs.isEmpty then
        let c : Comment :=
          { id := newId, postId := post.id, authorId := u.id
            body := body, created_at := now }
        (.created201 c,
         { db with comments := db.comments ++ [c] },
         publishedCommentEvent redisOk c post u)
      else (.badRequest400 errs, db, [])

/- ===================== Authentication ===================== -/

/-- Embeds django.contrib.auth.authenticate under the default ModelBackend:
look the user up by the email USERNAME_FIELD, check the password, and reject
inactive users (user_can_authenticate); None on any failure. -/
def authenticate (db : DB) (email password : String) : Option User :=
  match db.users.find? (fun u => u.email == email) with
  | none => none
  | some u =>
    if checkPassword password u.passwordHash && u.is_active then some u
    else none

/-- Outcome of the login endpoint.  serverError stands for the unhandled
AttributeError raised when the serializer dereferences is_active on the None
returned by authenticate. -/
inductive LoginResult
  | ok200 (u : User) (tokens : TokenPair)
  | badRequest400 (msg : String)
  | rateLimited429
  | serverError
deriving Repr, DecidableEq

/-- Embeds AuthViewSet.login (src/apps/users/views.py:112-155) together with
LoginSerializer.validate (src/apps/users/serializers.py:119-152): the
is_rate_limited check at 5 per window, the serializer's literal guard
(if not email and password), then user = authenticate(...) followed
immediately by reading user.is_active — before the if not user guard — so a
None result from authenticate raises AttributeError instead of a validation
error.  On success the view issues the profile with an access/refresh
pair. -/
def login (db : DB) (email password : String) (rlCount : Nat) : LoginResult :=
  if 5 ≤ rlCount then .rateLimited429
  else if email = "" ∧ password ≠ "" then
    .badRequest400 "There is not email or password"
  else
    match authenticate db email password with
    | none => .serverError
    | some u =>
      if ¬ u.is_active then .badRequest400 "User is deactivate"
      else .ok200 u (tokensFor u)

/- ===================== User management API ===================== -/

/-- DRF IsAuthenticated: the request carries an authenticated identity. -/
def isAuthenticated (actor : Option User) : Bool := actor.isSome

/-- Modelled from the spec: src/apps/users/views.py imports IsOwnerOrReadOnly
from apps.users.permissions, a module that is not present under src/.  Spec
section 4.2: any client may perform read operations; only the resource's own
identity may perform update/delete/password-change.  isRead marks the safe
methods. -/
def isOwnerOrReadOnly (actor : Option User) (targetPk : Nat) (isRead : Bool) :
    Bool :=
  isRead ||
    (match actor with
     | some u => u.id == targetPk
     | none => false)

/-- The permission gate UserViewSet.get_permissions installs for
update_profile, change_password and destroy
(src/apps/users/views.py:223-231): IsAuthenticated together with the
owner-or-read-only rule on an unsafe method. -/
def userWriteAllowed (actor : Option User) (targetPk : Nat) : Bool :=
  isAuthenticated actor && isOwnerOrReadOnly actor targetPk false

/-- Outcome of the user management endpoints. -/
inductive UserResult
  | ok200profile (u : User)
  | ok200profiles (users : List User) (total : Nat)
  | ok200msg (msg : String)
  | reset205 (msg : String)
  | badRequest400 (errors : List (String × String))
  | forbidden (msg : String)
  | notFound404
deriving Repr, DecidableEq

/-- Embeds UserViewSet.retrieve (src/apps/users/views.py:233-252), installed
with AllowAny: the public profile for an existing pk, 404 otherwise. -/
def userRetrieve (db : DB) (pk : Nat) : UserResult :=
  match findUser db pk with
  | some u => .ok200profile u
  | none => .notFound404

/-- Embeds UserViewSet.list (src/apps/users/views.py:254-277), installed with
AllowAny: all profiles with a total count, or the empty-result message. -/
def userList (db : DB) : UserResult :=
  if db.users.isEmpty then .ok200msg "No users found"
  else .ok200profiles db.users db.users.length

/-- The cascades of deleting a user: owned posts (CASCADE), owned comments
(CASCADE), and comments of the deleted posts (CASCADE through Post). -/
def deleteUserCascade (db : DB) (pk : Nat) : DB :=
  let deadPosts := (db.posts.filter (fun p => p.authorId == pk)).map (fun p => p.id)
  { db with
    users := db.users.filter (fun u => u.id != pk)
    posts := db.posts.filter (fun p => p.authorId != pk)
    comments := db.comments.filter
      (fun c => c.authorId != pk && !(deadPosts.contains c.postId)) }

/-- Embeds UserViewSet.destroy (src/apps/users/views.py:279-300) behind the
dispatch-time permission gate: a non-owner or anonymous caller is rejected
with nothing changed; the owner's delete removes the account (with its
cascades) and answers 205. -/
def userDestroy (db : DB) (actor : Option User) (pk : Nat) :
    UserResult × DB :=
  if !(userWriteAllowed actor pk) then (.forbidden "permission denied", db)
  else
    match findUser db pk with
    | none => (.notFound404, db)
    | some _ => (.reset205 "User deleted successfully", deleteUserCascade db pk)

/-- Embeds UserViewSet.update_profile (src/apps/users/views.py:302-338)
behind the permission gate: UpdateUserProfileSerializer exposes full_name as
the only writable field, applied partially. -/
def userUpdateProfile (db : DB) (actor : Option User) (pk : Nat)
    (full_name : Option String) : UserResult × DB :=
  if !(userWriteAllowed actor pk) then (.forbidden "permission denied", db)
  else
    match findUser db pk with
    | none => (.notFound404, db)
    | some u =>
      let u' := { u with full_name := full_name.getD u.full_name }
      (.ok200profile u',
       { db with users := db.users.map (fun v => if v.id == pk then u' else v) })

/-- Embeds UserViewSet.change_password (src/apps/users/views.py:340-379) with
ChangePasswordSerializer (src/apps/users/serializers.py:180-228) behind the
permission gate: validate_old_password checks the old password against the
acting identity (the serializer context request.user), the cross-field check
requires the confirmation to match, and the view then stores the hash of the
new password on the pk-resolved target. -/
def userChangePassword (db : DB) (actor : Option User) (pk : Nat)
    (oldPw newPw confirmPw : String) : UserResult × DB :=
  if !(userWriteAllowed actor pk) then (.forbidden "permission denied", db)
  else
    match actor with
    | none => (.forbidden "permission denied", db)
    | some a =>
      match findUser db pk with
      | none => (.notFound404, db)
      | some target =>
        if !(checkPassword oldPw a.passwordHash) then
          (.badRequest400 [("old_password", "Old password is not correct")], db)
        else if newPw ≠ confirmPw then
          (.badRequest400 [("error", "Non correct")], db)
        else
          let t := { target with passwordHash := hashPassword newPw }
          (.ok200msg "Password changed successfully",
           { db with users := db.users.map (fun v => if v.id == pk then t else v) })

/- ===================== User generator ===================== -/

/-- Command-line options of generate_users
(src/apps/users/management/commands/generate_users.py:26-50); the counts are
Int because argparse accepts negative values, which handle validates. -/
structure GenUsersOptions where
  count : Int
  superusers : Int
  clear : Bool
deriving Repr, DecidableEq

/-- The CommandError raised by the argument validation of
generate_users Command.handle
(src/apps/users/management/commands/generate_users.py:59-67). -/
inductive CommandErr
  | countNegative
  | superusersNegative
  | superusersExceedCount
deriving Repr, DecidableEq

/-- A user instance built by _create_user_instance but not yet saved. -/
structure UserDraft where
  email : String
  full_name : String
  is_active : Bool
  is_staff : Bool
  is_superuser : Bool
  passwordHash : String
deriving Repr, DecidableEq

/-- Threads the generator's consumption of the two fake-data streams and the
used_emails set through the generation loops. -/
structure GenState where
  eIdx : Nat
  nIdx : Nat
  used : List String
deriving Repr, DecidableEq

/-- Embeds the unique-email search of _create_user_instance
(src/apps/users/management/commands/generate_users.py:205-216): up to 10
draws from the fake email stream, consuming one stream element per attempt;
none when every attempt collided with used_emails. -/
def findFreshEmail (emails : Nat → String) :
    Nat → Nat → List String → Option String × Nat
  | 0, eIdx, _ => (none, eIdx)
  | fuel + 1, eIdx, used =>
    let e := emails eIdx
    if e ∈ used then findFreshEmail emails fuel (eIdx + 1) used
    else (some e, eIdx + 1)

/-- Embeds _create_user_instance
(src/apps/users/management/commands/generate_users.py:188-237): a fresh
email (or a logged skip), a fake full name, is_active true, is_staff and
is_superuser both set to the requested superuser flag, and the fixed
password password123 hashed by set_password. -/
def createUserInstance (emails names : Nat → String) (isSuper : Bool)
    (st : GenState) : Option UserDraft × GenState :=
  match findFreshEmail emails 10 st.eIdx st.used with
  | (none, e') => (none, { st with eIdx := e' })
  | (some email, e') =>
    (some { email := email, full_name := names st.nIdx, is_active := true
            is_staff := isSuper, is_superuser := isSuper
            passwordHash := hashPassword "password123" },
     { eIdx := e', nIdx := st.nIdx + 1, used := st.used ++ [email] })

/-- Embeds one generation loop of _generate_users
(src/apps/users/management/commands/generate_users.py:138-158): n instances
of one kind, skipping those whose unique email could not be obtained. -/
def genUsersLoop (emails names : Nat → String) (isSuper : Bool) :
    Nat → GenState → List UserDraft × GenState
  | 0, st => ([], st)
  | n + 1, st =>
    let (d?, st') := createUserInstance emails names isSuper st
    let (rest, st'') := genUsersLoop emails names isSuper n st'
    match d? with
    | some d => (d :: rest, st'')
    | none => (rest, st'')

/-- Saves drafts with database-assigned sequential primary keys, as
bulk_create does. -/
def assignIds : Nat → List UserDraft → List User
  | _, [] => []
  | base, d :: ds =>
    { id := base, email := d.email, full_name := d.full_name
      passwordHash := d.passwordHash, is_active := d.is_active
      is_staff := d.is_staff, is_superuser := d.is_superuser } ::
    assignIds (base + 1) ds

/-- The next primary key the store would assign. -/
def nextUserId (db : DB) : Nat :=
  db.users.foldr (fun u m => max (u.id + 1) m) 1

/-- Embeds Command.handle with _generate_users
(src/apps/users/management/commands/generate_users.py:52-186): validation
errors abort before any database change; an optional confirmed clear deletes
every user (cascading to their posts and comments); then count - superusers
ordinary users and superusers superusers are generated against the set of
already-used emails and bulk-saved. -/
def generateUsers (db : DB) (opts : GenUsersOptions) (confirmClear : Bool)
    (emails names : Nat → String) : Except CommandErr DB :=
  if opts.count < 0 then .error .countNegative
  else if opts.superusers < 0 then .error .superusersNegative
  else if opts.count < opts.superusers then .error .superusersExceedCount
  else
    let db1 :=
      if opts.clear ∧ confirmClear ∧ db.users ≠ [] then
        { db with users := [], posts := [], comments := [] }
      else db
    let count := opts.count.toNat
    let supers := opts.superusers.toNat
    if count = 0 then .ok db1
    else
      let st0 : GenState :=
        { eIdx := 0, nIdx := 0, used := db1.users.map (fun u => u.email) }
      let (regs, st1) := genUsersLoop emails names false (count - supers) st0
      let (sups, _) := genUsersLoop emails names true supers st1
      .ok { db1 with
              users := db1.users ++ assignIds (nextUserId db1) (regs ++ sups) }

/-- The draft shape _create_user_instance builds on a successful email draw:
active, both privilege flags equal to the requested superuser flag, and the
hash of the fixed password password123. -/
def mkDraft (e nm : String) (isSuper : Bool) : UserDraft :=
  { email := e, full_name := nm, is_active := true
    is_staff := isSuper, is_superuser := isSuper
    passwordHash := hashPassword "password123" }

/- ===================== Fixtures ===================== -/

/-- An active user, the author of the fixture post. -/
def alice : User :=
  { id := 1, email := "alice@example.com", full_name := "Alice A"
    passwordHash := hashPassword "alicepw", is_active := true
    is_staff := false, is_superuser := false }

/-- A second active user, not the author of the fixture post. -/
def bob : User :=
  { id := 2, email := "bob@example.com", full_name := "Bob B"
    passwordHash := hashPassword "bobpw", is_active := true
    is_staff := false, is_superuser := false }

/-- A deactivated account with a known password. -/
def carl : User :=
  { id := 3, email := "carl@example.com", full_name := "Carl C"
    passwordHash := hashPassword "carlpw", is_active := false
    is_staff := false, is_superuser := false }

/-- A published post authored by alice. -/
def alicePost : Post :=
  { id := 10, authorId := 1, title := "Hello World Post"
    slug := "hello-world-post", body := "Body text", categoryId := none
    tags := [], status := .published, created_at := 100, updated_at := 100 }

/-- A comment by bob on alice's post. -/
def demoComment : Comment :=
  { id := 20, postId := 10, authorId := 2, body := "First comment"
    created_at := 150 }

/-- The fixture store. -/
def demoDB : DB :=
  { users := [alice, bob, carl], categories := [], tags := []
    posts := [alicePost], comments := [demoComment] }

/-- The fixture store before any post exists. -/
def emptyPostsDB : DB :=
  { users := [alice, bob, carl], categories := [], tags := []
    posts := [], comments := [] }

/- ===================== Claim theorems ===================== -/

/-- C1.  The claim says a PATCH or DELETE by an authenticated non-author
yields 401 with the post unchanged.  The code violates this for DELETE:
PostViewSet.destroy checks only authentication and never compares
post.author to request.user (and IsPublishedOrEdit's object-level check is
never invoked), so bob — authenticated, not the author — deletes alice's
post, receives 204, and the post is gone.  The PATCH half does hold: the
update handler answers 401 and leaves the store unchanged. -/
theorem destroy_ignores_ownership :
    bob.id ≠ alicePost.authorId ∧
    postDestroy demoDB (some bob) "hello-world-post" =
      (.deleted204, { demoDB with posts := [], comments := [] }) ∧
    postUpdate demoDB (some bob) "hello-world-post"
        { title := none, body := some "hacked", category := none
          tags := none, status := none } 200 =
      (.unauthorized401 "You do not have permission to edit this post",
       demoDB) := by
  refine ⟨by decide, ?_, ?_⟩ <;> rfl

/-- C2.  The claim says the creation endpoint stores a slug slugified from
the title with collision suffixes.  CreatePostSerializer never assigns a
slug, so the endpoint-created post is stored with the empty-string SlugField
default rather than the slugified title, and a second creation collides on
the unique constraint (IntegrityError, an unhandled server error).  The
collision-suffix scheme exists only in the generator command, where it does
behave as described. -/
theorem create_endpoint_never_slugifies :
    (postCreate emptyPostsDB (some alice)
        { title := "My Post", body := "Some body", category := none
          tags := [], status := some .published } 0 11 100).1 =
      .created201
        { id := 11, authorId := 1, title := "My Post", slug := ""
          body := "Some body", categoryId := none, tags := []
          status := .published, created_at := 100, updated_at := 100 } ∧
    slugify "My Post" = "my-post" ∧
    ("" : String) ≠ slugify "My Post" ∧
    (postCreate
        (postCreate emptyPostsDB (some alice)
          { title := "My Post", body := "Some body", category := none
            tags := [], status := some .published } 0 11 100).2
        (some alice)
        { title := "Another Post", body := "More body", category := none
          tags := [], status := none } 0 12 101).1 = .serverError ∧
    uniqueSlug "My Post" ["my-post", "my-post-1"] = "my-post-2" := by
  refine ⟨?_, ?_, ?_, ?_, ?_⟩ <;> first
    | rfl
    | decide

/-- C6.  The claim says bad credentials and an inactive account each yield an
HTTP 400 validation error with no tokens.  In the code,
LoginSerializer.validate dereferences user.is_active before its if not user
guard, and the default backend returns None both for bad credentials and for
an inactive account, so all three failure inputs raise AttributeError — an
unhandled 500, not a 400 — while valid credentials for an active account do
yield 200 with the profile and token pair. -/
theorem login_crashes_on_bad_credentials :
    login demoDB "nobody@example.com" "whatever" 0 = .serverError ∧
    login demoDB "alice@example.com" "wrongpw" 0 = .serverError ∧
    login demoDB "carl@example.com" "carlpw" 0 = .serverError ∧
    carl.is_active = false ∧
    login demoDB "alice@example.com" "alicepw" 0 =
      .ok200 alice (tokensFor alice) := by
  refine ⟨?_, ?_, ?_, by decide, ?_⟩ <;> rfl

/-- C7.  The claim says a GET on the nested comments route of an existing
slug answers 200 with that post's comments, most recent first, and 404 on an
unknown slug.  The 404 half holds, but on an existing slug the handler reads
post.comments while the reverse accessor declared by the Comment.post
related_name is post, so the read raises AttributeError — an unhandled
server error — and no comment list is ever produced. -/
theorem comments_route_crashes_on_existing_slug :
    postCommentsGet demoDB "hello-world-post" = .serverError ∧
    postCommentsGet demoDB "no-such-slug" = .notFound404 ∧
    commentPostRelatedName ≠ "comments" ∧
    postReverseManager demoDB alicePost commentPostRelatedName =
      some [demoComment] := by
  refine ⟨?_, ?_, by decide, ?_⟩ <;> rfl

/-- C10.  The public comment-creation endpoint applies no minimum length to
the body: an authenticated request with the two-character body ab succeeds
with 201 and the comment is persisted, while the comment-edit serializer
rejects that same body with the three-character message. -/
theorem comment_create_has_no_min_length :
    ("ab" : String).length = 2 ∧
    (postCommentsPost demoDB (some bob) "hello-world-post" "ab" 21 200
        true).1 =
      .created201
        { id := 21, postId := 10, authorId := 2, body := "ab"
          created_at := 200 } ∧
    ({ id := 21, postId := 10, authorId := 2, body := "ab"
       created_at := 200 } : Comment) ∈
      (postCommentsPost demoDB (some bob) "hello-world-post" "ab" 21 200
        true).2.1.comments ∧
    validate_body "ab" =
      .error "Comment must be at least 3 characters long" := by
  refine ⟨by decide, ?_, by decide, ?_⟩ <;> rfl

/-- C4, counterexample.  The claim says every successful comment creation
publishes a message of kind comment_created whose payload includes the post
slug and author email.  On the HTTP path the single published message has
kind comment_published, no top-level timestamp, and a payload with neither a
post_slug nor an author_email field, so the claim is false as stated. -/
theorem comment_event_not_as_claimed :
    (postCommentsPost demoDB (some bob) "hello-world-post" "Great read" 22
        300 true).2.2 =
      [("comments",
        publishedCommentEventData
          { id := 22, postId := 10, authorId := 2, body := "Great read"
            created_at := 300 } alicePost bob)] ∧
    (publishedCommentEventData
        { id := 22, postId := 10, authorId := 2, body := "Great read"
          created_at := 300 } alicePost bob).event = "comment_published" ∧
    "comment_published" ≠ "comment_created" ∧
    (publishedCommentEventData
        { id := 22, postId := 10, authorId := 2, body := "Great read"
          created_at := 300 } alicePost bob).timestamp = none ∧
    ((publishedCommentEventData
        { id := 22, postId := 10, authorId := 2, body := "Great read"
          created_at := 300 } alicePost bob).data.lookup "post_slug") =
      none ∧
    ((publishedCommentEventData
        { id := 22, postId := 10, authorId := 2, body := "Great read"
          created_at := 300 } alicePost bob).data.lookup "author_email") =
      none := by
  refine ⟨?_, ?_, by decide, ?_, ?_, ?_⟩ <;> rfl

/-- C5.  The post list endpoint shows an anonymous caller exactly the
published posts (never a draft) and an authenticated caller exactly the
union of the published posts and their own posts, drafts included.  The
anonymous path is stated under cache coherence: the published_posts entry is
either absent or holds the serialization of the current published set, which
is the only value the endpoint ever stores there. -/
theorem post_list_visibility (db : DB) (u : User) (p : Post)
    (cache : Option (List Post))
    (hcache : cache = none ∨
      cache =
        some (db.posts.filter (fun q => q.status == PostStatus.published))) :
    (p ∈ (postList db none cache).posts ↔
      p ∈ db.posts ∧ p.status = .published) ∧
    (p ∈ (postList db (some u) cache).posts ↔
      p ∈ db.posts ∧ (p.status = .published ∨ p.authorId = u.id)) := by
  constructor
  · rcases hcache with h | h <;> subst h
    · simp [postList, List.mem_filter]
    · by_cases he :
        (db.posts.filter (fun q => q.status == PostStatus.published)).isEmpty <;>
        simp [postList, he, List.mem_filter]
  · simp [postList, List.mem_filter]

/-- C5, witness: the theorem applied to the fixture store with an absent
cache entry. -/
theorem post_list_visibility_witness :
    (alicePost ∈ (postList demoDB none none).posts ↔
      alicePost ∈ demoDB.posts ∧ alicePost.status = .published) ∧
    (alicePost ∈ (postList demoDB (some bob) none).posts ↔
      alicePost ∈ demoDB.posts ∧
        (alicePost.status = .published ∨ alicePost.authorId = bob.id)) :=
  post_list_visibility demoDB bob alicePost none (Or.inl rfl)

/-- C3.  For the user-management endpoints, reads (retrieve, list) are open
to any client, while profile update, password change and account deletion
are rejected for any actor other than the target identity, with the store
unchanged — so those operations can succeed only for the owner.  The
IsOwnerOrReadOnly permission the views import is modelled from the spec,
since apps/users/permissions.py is not present under src/. -/
theorem users_owner_or_read_only (db : DB) (actor : Option User) (pk : Nat)
    (fn : Option String) (oldPw newPw confirmPw : String) (u : User)
    (hne : ∀ w, actor = some w → w.id ≠ pk) :
    userDestroy db actor pk = (.forbidden "permission denied", db) ∧
    userUpdateProfile db actor pk fn = (.forbidden "permission denied", db) ∧
    userChangePassword db actor pk oldPw newPw confirmPw =
      (.forbidden "permission denied", db) ∧
    (findUser db pk = some u → userRetrieve db pk = .ok200profile u) ∧
    (db.users ≠ [] → userList db = .ok200profiles db.users db.users.length) := by
  have hgate : userWriteAllowed actor pk = false := by
    cases actor with
    | none => rfl
    | some w =>
      simp [userWriteAllowed, isAuthenticated, isOwnerOrReadOnly, hne w rfl]
  refine ⟨?_, ?_, ?_, ?_, ?_⟩
  · simp [userDestroy, hgate]
  · simp [userUpdateProfile, hgate]
  · simp [userChangePassword, hgate]
  · intro h
    simp [userRetrieve, h]
  · intro h
    simp [userList, h]

/-- C3, witness: bob, authenticated but not user 1, is turned away from all
three mutating operations on alice's account, while the open reads
succeed. -/
theorem users_owner_or_read_only_witness :
    userDestroy demoDB (some bob) 1 = (.forbidden "permission denied", demoDB) ∧
    userUpdateProfile demoDB (some bob) 1 none =
      (.forbidden "permission denied", demoDB) ∧
    userChangePassword demoDB (some bob) 1 "bobpw" "x" "x" =
      (.forbidden "permission denied", demoDB) ∧
    (findUser demoDB 1 = some alice →
      userRetrieve demoDB 1 = .ok200profile alice) ∧
    (demoDB.users ≠ [] →
      userList demoDB = .ok200profiles demoDB.users demoDB.users.length) :=
  users_owner_or_read_only demoDB (some bob) 1 none "bobpw" "x" "x" alice
    (by intro w hw; cases hw; decide)

/-- Helper: a title shorter than five characters contributes exactly the
length error. -/
theorem titleErrs_short (t : String) (h : t.length < 5) :
    titleErrs t = [("title", "Title must be at least 5 characters long")] := by
  simp [titleErrs, validate_title, h]

/-- Helper: a title of five or more characters contributes no error. -/
theorem titleErrs_ok (t : String) (h : 5 ≤ t.length) : titleErrs t = [] := by
  simp [titleErrs, validate_title, Nat.not_lt.mpr h]

/-- C8.  Both the create and the edit path fail a title shorter than five
characters with the message Title must be at least 5 characters long and
leave the store unchanged, and both succeed on a title of five or more
characters when the remaining fields are valid (non-blank body, existing
category and tag references, and — on create — no stored post already
occupying the empty slug the serializer is about to write). -/
theorem title_length_rule (db : DB) (actor : User) (inp : CreatePostInput)
    (einp : EditPostInput) (slug : String) (post : Post)
    (rl newId now : Nat) (t t' : String)
    (hrl : rl < 20)
    (hpost : db.posts.find? (fun q => q.slug == slug) = some post)
    (hauth : post.authorId = actor.id) :
    (t.length < 5 →
      validate_title t = .error "Title must be at least 5 characters long") ∧
    (5 ≤ t.length → validate_title t = .ok t) ∧
    (inp.title.length < 5 →
      ∃ errs, postCreate db (some actor) inp rl newId now =
          (.badRequest400 errs, db) ∧
        ("title", "Title must be at least 5 characters long") ∈ errs) ∧
    (5 ≤ inp.title.length → inp.body ≠ "" →
      categoryErrs db inp.category = [] → tagsErrs db inp.tags = [] →
      (∀ q ∈ db.posts, q.slug ≠ "") →
      ∃ p db', postCreate db (some actor) inp rl newId now =
          (.created201 p, db') ∧
        p.title = inp.title ∧ db'.posts = db.posts ++ [p]) ∧
    (einp.title = some t' → t'.length < 5 →
      ∃ errs, postUpdate db (some actor) slug einp now =
          (.badRequest400 errs, db) ∧
        ("title", "Title must be at least 5 characters long") ∈ errs) ∧
    (einp.title = some t' → 5 ≤ t'.length →
      whenPresent bodyErrs einp.body = [] →
      whenPresent (categoryErrs db) einp.category = [] →
      whenPresent (tagsErrs db) einp.tags = [] →
      postUpdate db (some actor) slug einp now =
        (.ok200 (applyEdit post einp now),
         { db with posts :=
             db.posts.map (fun q =>
               if q.id == post.id then applyEdit post einp now else q) }) ∧
      (applyEdit post einp now).title = t') := by
  have hrl' : ¬ 20 ≤ rl := Nat.not_le.mpr hrl
  refine ⟨?_, ?_, ?_, ?_, ?_, ?_⟩
  · intro h
    simp [validate_title, h]
  · intro h
    simp [validate_title, Nat.not_lt.mpr h]
  · intro h
    refine ⟨createPostValidate db inp, ?_, ?_⟩
    · have hne : (createPostValidate db inp).isEmpty = false := by
        simp [createPostValidate, titleErrs_short inp.title h]
      simp [postCreate, hrl', hne]
    · simp [createPostValidate, titleErrs_short inp.title h]
  · intro h1 h2 h3 h4 h5
    have hv : createPostValidate db inp = [] := by
      simp [createPostValidate, titleErrs_ok inp.title h1, bodyErrs, h2, h3, h4]
    have hany : db.posts.any (fun q => q.slug == ("" : String)) = false := by
      rw [List.any_eq_false]
      intro q hq
      simpa using h5 q hq
    refine
      ⟨{ id := newId, authorId := actor.id, title := inp.title, slug := ""
         body := inp.body, categoryId := inp.category, tags := inp.tags
         status := inp.status.getD .draft, created_at := now
         updated_at := now },
       { db with posts := db.posts ++
           [{ id := newId, authorId := actor.id, title := inp.title
              slug := "", body := inp.body, categoryId := inp.category
              tags := inp.tags, status := inp.status.getD .draft
              created_at := now, updated_at := now }] }, ?_, rfl, rfl⟩
    simp [postCreate, hrl', hv, createPostSerializerSave, hany]
  · intro he hlt
    refine ⟨editPostValidate db einp, ?_, ?_⟩
    · have hne : (editPostValidate db einp).isEmpty = false := by
        simp [editPostValidate, whenPresent, he, titleErrs_short t' hlt]
      simp [postUpdate, hpost, hauth, hne]
    · simp [editPostValidate, whenPresent, he, titleErrs_short t' hlt]
  · intro he hge hb hc ht
    have hv : editPostValidate db einp = [] := by
      simp only [editPostValidate, he, hb, hc, ht]
      simp [whenPresent, titleErrs_ok t' hge]
    refine ⟨?_, ?_⟩
    · simp [postUpdate, hpost, hauth, hv]
    · simp [applyEdit, he]

/-- C8, witness: the theorem applied on the fixture store to the
four-character title Tiny for the failing halves, with the hypotheses
discharged concretely. -/
theorem title_length_rule_witness :
    (("Tiny" : String).length < 5 →
      validate_title "Tiny" =
        .error "Title must be at least 5 characters long") ∧
    (5 ≤ ("Tiny" : String).length → validate_title "Tiny" = .ok "Tiny") ∧
    (({ title := "Tiny", body := "b", category := none, tags := []
        status := none } : CreatePostInput).title.length < 5 →
      ∃ errs, postCreate demoDB (some alice)
          { title := "Tiny", body := "b", category := none, tags := []
            status := none } 0 30 500 = (.badRequest400 errs, demoDB) ∧
        ("title", "Title must be at least 5 characters long") ∈ errs) ∧
    (5 ≤ ({ title := "Tiny", body := "b", category := none, tags := []
            status := none } : CreatePostInput).title.length →
      ({ title := "Tiny", body := "b", category := none, tags := []
         status := none } : CreatePostInput).body ≠ "" →
      categoryErrs demoDB
          ({ title := "Tiny", body := "b", category := none, tags := []
             status := none } : CreatePostInput).category = [] →
      tagsErrs demoDB
          ({ title := "Tiny", body := "b", category := none, tags := []
             status := none } : CreatePostInput).tags = [] →
      (∀ q ∈ demoDB.posts, q.slug ≠ "") →
      ∃ p db', postCreate demoDB (some alice)
          { title := "Tiny", body := "b", category := none, tags := []
            status := none } 0 30 500 = (.created201 p, db') ∧
        p.title =
          ({ title := "Tiny", body := "b", category := none, tags := []
             status := none } : CreatePostInput).title ∧
        db'.posts = demoDB.posts ++ [p]) ∧
    (({ title := some "Tiny", body := none, category := none, tags := none
        status := none } : EditPostInput).title = some "Tiny" →
      ("Tiny" : String).length < 5 →
      ∃ errs, postUpdate demoDB (some alice) "hello-world-post"
          { title := some "Tiny", body := none, category := none
            tags := none, status := none } 500 =
          (.badRequest400 errs, demoDB) ∧
        ("title", "Title must be at least 5 characters long") ∈ errs) ∧
    (({ title := some "Tiny", body := none, category := none, tags := none
        status := none } : EditPostInput).title = some "Tiny" →
      5 ≤ ("Tiny" : String).length →
      whenPresent bodyErrs
          ({ title := some "Tiny", body := none, category := none
             tags := none, status := none } : EditPostInput).body = [] →
      whenPresent (categoryErrs demoDB)
          ({ title := some "Tiny", body := none, category := none
             tags := none, status := none } : EditPostInput).category = [] →
      whenPresent (tagsErrs demoDB)
          ({ title := some "Tiny", body := none, category := none
             tags := none, status := none } : EditPostInput).tags = [] →
      postUpdate demoDB (some alice) "hello-world-post"
          { title := some "Tiny", body := none, category := none
            tags := none, status := none } 500 =
        (.ok200 (applyEdit alicePost
            { title := some "Tiny", body := none, category := none
              tags := none, status := none } 500),
         { demoDB with posts :=
             demoDB.posts.map (fun q =>
               if q.id == alicePost.id then
                 applyEdit alicePost
                   { title := some "Tiny", body := none, category := none
                     tags := none, status := none } 500
               else q) }) ∧
      (applyEdit alicePost
          { title := some "Tiny", body := none, category := none
            tags := none, status := none } 500).title = "Tiny") :=
  title_length_rule demoDB alice
    { title := "Tiny", body := "b", category := none, tags := []
      status := none }
    { title := some "Tiny", body := none, category := none, tags := none
      status := none }
    "hello-world-post" alicePost 0 30 500 "Tiny" "Tiny"
    (by decide) (by rfl) (by decide)

/-- Helper: the generator's event loop publishes exactly one message per
comment whose publish does not fail, in order, and counts them. -/
theorem publishCommentEvents_eq (gnow : Nat) (f : Nat → Bool)
    (ts : List (Comment × Post × User)) :
    publishCommentEvents gnow f ts =
      ((ts.filter (fun t => !(f t.1.id))).length,
       (ts.filter (fun t => !(f t.1.id))).map
         (fun t => ("comments", generatorCommentEvent t.1 t.2.1 t.2.2 gnow))) := by
  induction ts with
  | nil => rfl
  | cons t ts ih =>
    by_cases h : f t.1.id <;> simp [publishCommentEvents, h, ih]

/-- C4, amended.  On each successful HTTP comment creation exactly one JSON
message is published on the channel comments — kind comment_published, no
top-level timestamp, payload of comment_id, post_id, author_id, the body
under content, and the ISO creation timestamp — and when the publish fails
nothing is emitted while the request still persists the comment and answers
201.  The generator path publishes, per generated comment whose publish does
not fail, one message on comments of kind comment_created carrying an epoch
timestamp and a payload of id, post_id, post_title, author_id, author_name,
the body truncated to 100 characters, and the ISO creation timestamp;
per-comment failures are skipped and the run continues.  Neither payload
carries a post slug or an author email. -/
theorem comment_event_contract (db : DB) (u : User) (p : Post)
    (slug body : String) (newId now : Nat) (redisOk : Bool)
    (ts : List (Comment × Post × User)) (gnow : Nat) (f : Nat → Bool)
    (hpost : db.posts.find? (fun q => q.slug == slug) = some p)
    (hbody : body ≠ "") :
    (postCommentsPost db (some u) slug body newId now redisOk).1 =
      .created201
        { id := newId, postId := p.id, authorId := u.id, body := body
          created_at := now } ∧
    (postCommentsPost db (some u) slug body newId now redisOk).2.1.comments =
      db.comments ++
        [{ id := newId, postId := p.id, authorId := u.id, body := body
           created_at := now }] ∧
    (postCommentsPost db (some u) slug body newId now redisOk).2.2 =
      (if redisOk then
        [("comments",
          publishedCommentEventData
            { id := newId, postId := p.id, authorId := u.id, body := body
              created_at := now } p u)]
       else []) ∧
    (publishedCommentEventData
        { id := newId, postId := p.id, authorId := u.id, body := body
          created_at := now } p u) =
      { event := "comment_published", timestamp := none
        data := [("comment_id", .n newId), ("post_id", .n p.id),
                 ("author_id", .n u.id), ("content", .s body),
                 ("created_at", .s (isoformat now))] } ∧
    (publishCommentEvents gnow f ts).2 =
      (ts.filter (fun t => !(f t.1.id))).map
        (fun t => ("comments", generatorCommentEvent t.1 t.2.1 t.2.2 gnow)) ∧
    (publishCommentEvents gnow f ts).1 =
      (ts.filter (fun t => !(f t.1.id))).length ∧
    ∀ c q a, generatorCommentEvent c q a gnow =
      { event := "comment_created", timestamp := some gnow
        data := [("id", .n c.id), ("post_id", .n q.id),
                 ("post_title", .s q.title), ("author_id", .n a.id),
                 ("author_name", .s a.full_name),
                 ("body", .s (String.mk (c.body.data.take 100))),
                 ("created_at", .s (isoformat c.created_at))] } := by
  have hval : commentSerializerValidate body = [] := by
    simp [commentSerializerValidate, hbody]
  refine ⟨?_, ?_, ?_, rfl, ?_, ?_, fun c q a => rfl⟩
  · simp [postCommentsPost, hpost, hval]
  · simp [postCommentsPost, hpost, hval]
  · simp [postCommentsPost, hpost, hval, publishedCommentEvent]
  · rw [publishCommentEvents_eq]
  · rw [publishCommentEvents_eq]

/-- C4, amended, witness: the theorem applied to the fixture store with the
redis publish failing (the comment is still persisted and answered 201 and
nothing is emitted) and a one-element generator batch with no failures. -/
theorem comment_event_contract_witness :
    (postCommentsPost demoDB (some bob) "hello-world-post" "Great read" 22
        300 false).1 =
      .created201
        { id := 22, postId := alicePost.id, authorId := bob.id
          body := "Great read", created_at := 300 } ∧
    (postCommentsPost demoDB (some bob) "hello-world-post" "Great read" 22
        300 false).2.1.comments =
      demoDB.comments ++
        [{ id := 22, postId := alicePost.id, authorId := bob.id
           body := "Great read", created_at := 300 }] ∧
    (postCommentsPost demoDB (some bob) "hello-world-post" "Great read" 22
        300 false).2.2 =
      (if false then
        [("comments",
          publishedCommentEventData
            { id := 22, postId := alicePost.id, authorId := bob.id
              body := "Great read", created_at := 300 } alicePost bob)]
       else []) ∧
    (publishedCommentEventData
        { id := 22, postId := alicePost.id, authorId := bob.id
          body := "Great read", created_at := 300 } alicePost bob) =
      { event := "comment_published", timestamp := none
        data := [("comment_id", .n 22), ("post_id", .n alicePost.id),
                 ("author_id", .n bob.id), ("content", .s "Great read"),
                 ("created_at", .s (isoformat 300))] } ∧
    (publishCommentEvents 900 (fun _ => false)
        [(demoComment, alicePost, bob)]).2 =
      ([(demoComment, alicePost, bob)].filter
          (fun t => !((fun _ => false) t.1.id))).map
        (fun t => ("comments", generatorCommentEvent t.1 t.2.1 t.2.2 900)) ∧
    (publishCommentEvents 900 (fun _ => false)
        [(demoComment, alicePost, bob)]).1 =
      ([(demoComment, alicePost, bob)].filter
          (fun t => !((fun _ => false) t.1.id))).length ∧
    ∀ c q a, generatorCommentEvent c q a 900 =
      { event := "comment_created", timestamp := some 900
        data := [("id", .n c.id), ("post_id", .n q.id),
                 ("post_title", .s q.title), ("author_id", .n a.id),
                 ("author_name", .s a.full_name),
                 ("body", .s (String.mk (c.body.data.take 100))),
                 ("created_at", .s (isoformat c.created_at))] } :=
  comment_event_contract demoDB bob alicePost "hello-world-post" "Great read"
    22 300 false [(demoComment, alicePost, bob)] 900 (fun _ => false)
    (by rfl) (by decide)

/-- Helper: when the next fake email is not yet used, _create_user_instance
succeeds on its first attempt, consuming one stream element and recording
the email. -/
theorem createUserInstance_fresh (emails names : Nat → String)
    (isSuper : Bool) (st : GenState) (h : emails st.eIdx ∉ st.used) :
    createUserInstance emails names isSuper st =
      (some (mkDraft (emails st.eIdx) (names st.nIdx) isSuper),
       { eIdx := st.eIdx + 1, nIdx := st.nIdx + 1
         used := st.used ++ [emails st.eIdx] }) := by
  simp [createUserInstance, findFreshEmail, h, mkDraft]

/-- Helper: under an email stream that is fresh and injective on the indices
the loop will consume, the generation loop produces exactly one draft per
requested user, in stream order, and the state advances accordingly. -/
theorem genUsersLoop_eq (emails names : Nat → String) (isSuper : Bool)
    (n : Nat) :
    ∀ st : GenState,
      (∀ i, st.eIdx ≤ i → i < st.eIdx + n → emails i ∉ st.used) →
      (∀ i j, st.eIdx ≤ i → i < st.eIdx + n → st.eIdx ≤ j → j < st.eIdx + n →
        emails i = emails j → i = j) →
      genUsersLoop emails names isSuper n st =
        ((List.range n).map
           (fun k => mkDraft (emails (st.eIdx + k)) (names (st.nIdx + k)) isSuper),
         { eIdx := st.eIdx + n, nIdx := st.nIdx + n
           used := st.used ++
             (List.range n).map (fun k => emails (st.eIdx + k)) }) := by
  induction n with
  | zero =>
    intro st h1 h2
    simp [genUsersLoop]
  | succ n ih =>
    intro st h1 h2
    have hfresh0 : emails st.eIdx ∉ st.used :=
      h1 st.eIdx le_rfl (by omega)
    have h1' : ∀ i, st.eIdx + 1 ≤ i → i < st.eIdx + 1 + n →
        emails i ∉ st.used ++ [emails st.eIdx] := by
      intro i hi1 hi2 hmem
      rcases List.mem_append.mp hmem with hm | hm
      · exact h1 i (by omega) (by omega) hm
      · have := h2 i st.eIdx (by omega) (by omega) le_rfl (by omega)
          (by simpa using hm)
        omega
    have h2' : ∀ i j, st.eIdx + 1 ≤ i → i < st.eIdx + 1 + n →
        st.eIdx + 1 ≤ j → j < st.eIdx + 1 + n → emails i = emails j → i = j :=
      fun i j hi1 hi2 hj1 hj2 heq =>
        h2 i j (by omega) (by omega) (by omega) (by omega) heq
    have hrec := ih { eIdx := st.eIdx + 1, nIdx := st.nIdx + 1
                      used := st.used ++ [emails st.eIdx] } h1' h2'
    simp only [genUsersLoop, createUserInstance_fresh emails names isSuper st hfresh0]
    rw [hrec]
    have hmk : (fun k =>
        mkDraft (emails (st.eIdx + 1 + k)) (names (st.nIdx + 1 + k)) isSuper)
        = fun k =>
            mkDraft (emails (st.eIdx + (k + 1))) (names (st.nIdx + (k + 1)))
              isSuper := by
      funext k
      have a1 : st.eIdx + 1 + k = st.eIdx + (k + 1) := by omega
      have a2 : st.nIdx + 1 + k = st.nIdx + (k + 1) := by omega
      rw [a1, a2]
    have hem : (fun k => emails (st.eIdx + 1 + k))
        = fun k => emails (st.eIdx + (k + 1)) := by
      funext k
      have a1 : st.eIdx + 1 + k = st.eIdx + (k + 1) := by omega
      rw [a1]
    have e1 : st.eIdx + 1 + n = st.eIdx + (n + 1) := by omega
    have e2 : st.nIdx + 1 + n = st.nIdx + (n + 1) := by omega
    rw [hmk, hem, e1, e2]
    simp [List.range_succ_eq_map, List.map_map, Function.comp_def,
      Nat.succ_eq_add_one, List.append_assoc]

/-- Helper: bulk_create saves one row per draft. -/
theorem assignIds_length (b : Nat) (ds : List UserDraft) :
    (assignIds b ds).length = ds.length := by
  induction ds generalizing b with
  | nil => rfl
  | cons d ds ih => simp [assignIds, ih]

/-- Helper: bulk_create preserves the draft emails in order. -/
theorem assignIds_map_email (b : Nat) (ds : List UserDraft) :
    (assignIds b ds).map (fun u => u.email) = ds.map (fun d => d.email) := by
  induction ds generalizing b with
  | nil => rfl
  | cons d ds ih => simp [assignIds, ih]

/-- Helper: bulk_create preserves how many rows carry the superuser flag. -/
theorem assignIds_super_length (b : Nat) (ds : List UserDraft) :
    ((assignIds b ds).filter (fun u => u.is_superuser)).length =
      (ds.filter (fun d => d.is_superuser)).length := by
  induction ds generalizing b with
  | nil => rfl
  | cons d ds ih =>
    by_cases h : d.is_superuser <;>
      simp [assignIds, List.filter_cons, h, ih]

/-- Helper: every saved row restates some draft's email, flags and hash. -/
theorem assignIds_mem (b : Nat) (ds : List UserDraft) :
    ∀ u ∈ assignIds b ds, ∃ d ∈ ds, u.email = d.email ∧
      u.is_staff = d.is_staff ∧ u.is_superuser = d.is_superuser ∧
      u.is_active = d.is_active ∧ u.passwordHash = d.passwordHash := by
  induction ds generalizing b with
  | nil => intro u hu; cases hu
  | cons d ds ih =>
    intro u hu
    rcases hu with _ | ⟨_, hu⟩
    · exact ⟨d, List.mem_cons_self d ds, rfl, rfl, rfl, rfl, rfl⟩
    · rcases ih (b + 1) u hu with ⟨d', hd', hprops⟩
      exact ⟨d', List.mem_cons_of_mem d hd', hprops⟩

/-- C9.  The user generator rejects a negative total count, a negative
superuser count, and a superuser count exceeding the total, each with a
command error issued before any database change; on a valid invocation
(stated without clearing, against a fake email stream that is fresh and
injective on the indices consumed) it appends exactly the requested number
of users, of which exactly the requested sub-count carry the superuser flag,
every new account has is_staff equal to is_superuser, is active, stores the
hash of password123, and the new emails are pairwise distinct and disjoint
from every pre-existing email. -/
theorem generate_users_contract (db : DB) (opts : GenUsersOptions)
    (confirmClear : Bool) (emails names : Nat → String) :
    (opts.count < 0 →
      generateUsers db opts confirmClear emails names =
        .error .countNegative) ∧
    (0 ≤ opts.count → opts.superusers < 0 →
      generateUsers db opts confirmClear emails names =
        .error .superusersNegative) ∧
    (0 ≤ opts.count → 0 ≤ opts.superusers → opts.count < opts.superusers →
      generateUsers db opts confirmClear emails names =
        .error .superusersExceedCount) ∧
    (0 ≤ opts.count → 0 ≤ opts.superusers → opts.superusers ≤ opts.count →
      opts.clear = false →
      (∀ i, i < opts.count.toNat →
        emails i ∉ db.users.map (fun u => u.email)) →
      (∀ i, i < opts.count.toNat → ∀ j, j < opts.count.toNat →
        emails i = emails j → i = j) →
      ∃ newUsers,
        generateUsers db opts confirmClear emails names =
          .ok { db with users := db.users ++ newUsers } ∧
        newUsers.length = opts.count.toNat ∧
        (newUsers.filter (fun u => u.is_superuser)).length =
          opts.superusers.toNat ∧
        (∀ u ∈ newUsers, u.is_staff = u.is_superuser ∧ u.is_active = true ∧
          u.passwordHash = hashPassword "password123") ∧
        (newUsers.map (fun u => u.email)).Nodup ∧
        (∀ u ∈ newUsers, u.email ∉ db.users.map (fun v => v.email))) := by
  refine ⟨?_, ?_, ?_, ?_⟩
  · intro h
    simp [generateUsers, h]
  · intro h0 h
    simp [generateUsers, Int.not_lt.mpr h0, h]
  · intro h0 h1 h
    simp [generateUsers, Int.not_lt.mpr h0, Int.not_lt.mpr h1, h]
  · intro h0 h1 h2 hclear hfresh hinj
    have hSN : opts.superusers.toNat ≤ opts.count.toNat :=
      Int.toNat_le_toNat h2
    by_cases hN : opts.count.toNat = 0
    · refine ⟨[], ?_, by simp [hN], ?_, by simp, by simp, by simp⟩
      · simp [generateUsers, Int.not_lt.mpr h0, Int.not_lt.mpr h1,
          Int.not_lt.mpr h2, hclear, hN]
      · have hS0 : opts.superusers.toNat = 0 := by omega
        simp [hS0]
    · have ha1 : ∀ i, (0 : Nat) ≤ i →
          i < 0 + (opts.count.toNat - opts.superusers.toNat) →
          emails i ∉ db.users.map (fun u => u.email) := by
        intro i _ hi
        exact hfresh i (by omega)
      have ha2 : ∀ i j, (0 : Nat) ≤ i →
          i < 0 + (opts.count.toNat - opts.superusers.toNat) →
          (0 : Nat) ≤ j →
          j < 0 + (opts.count.toNat - opts.superusers.toNat) →
          emails i = emails j → i = j := by
        intro i j _ hi _ hj heq
        exact hinj i (by omega) j (by omega) heq
      have hA := genUsersLoop_eq emails names false
        (opts.count.toNat - opts.superusers.toNat)
        { eIdx := 0, nIdx := 0, used := db.users.map (fun u => u.email) }
        ha1 ha2
      simp only [Nat.zero_add] at hA
      have hb1 : ∀ i, opts.count.toNat - opts.superusers.toNat ≤ i →
          i < opts.count.toNat - opts.superusers.toNat +
            opts.superusers.toNat →
          emails i ∉ db.users.map (fun u => u.email) ++
            (List.range (opts.count.toNat - opts.superusers.toNat)).map
              (fun k => emails k) := by
        intro i hi1 hi2 hmem
        rcases List.mem_append.mp hmem with hm | hm
        · exact hfresh i (by omega) hm
        · rcases List.mem_map.mp hm with ⟨k, hk, hke⟩
          have hkr := List.mem_range.mp hk
          have := hinj i (by omega) k (by omega) hke.symm
          omega
      have hb2 : ∀ i j, opts.count.toNat - opts.superusers.toNat ≤ i →
          i < opts.count.toNat - opts.superusers.toNat +
            opts.superusers.toNat →
          opts.count.toNat - opts.superusers.toNat ≤ j →
          j < opts.count.toNat - opts.superusers.toNat +
            opts.superusers.toNat →
          emails i = emails j → i = j := by
        intro i j hi1 hi2 hj1 hj2 heq
        exact hinj i (by omega) j (by omega) heq
      have hB := genUsersLoop_eq emails names true opts.superusers.toNat
        { eIdx := opts.count.toNat - opts.superusers.toNat
          nIdx := opts.count.toNat - opts.superusers.toNat
          used := db.users.map (fun u => u.email) ++
            (List.range (opts.count.toNat - opts.superusers.toNat)).map
              (fun k => emails k) }
        hb1 hb2
      refine ⟨assignIds (nextUserId db)
        ((List.range (opts.count.toNat - opts.superusers.toNat)).map
            (fun k => mkDraft (emails k) (names k) false) ++
         (List.range opts.superusers.toNat).map
            (fun k => mkDraft
              (emails (opts.count.toNat - opts.superusers.toNat + k))
              (names (opts.count.toNat - opts.superusers.toNat + k)) true)),
        ?_, ?_, ?_, ?_, ?_, ?_⟩
      · simp only [generateUsers]
        rw [if_neg (Int.not_lt.mpr h0), if_neg (Int.not_lt.mpr h1),
          if_neg (Int.not_lt.mpr h2)]
        rw [if_neg (show
          ¬(opts.clear = true ∧ confirmClear = true ∧ db.users ≠ []) from by
            simp [hclear])]
        rw [if_neg hN]
        rw [hA]
        dsimp only
        rw [hB]
      · have hmape :
            ((List.range (opts.count.toNat - opts.superusers.toNat)).map
                (fun k => mkDraft (emails k) (names k) false) ++
             (List.range opts.superusers.toNat).map
                (fun k => mkDraft
                  (emails (opts.count.toNat - opts.superusers.toNat + k))
                  (names (opts.count.toNat - opts.superusers.toNat + k))
                  true)).length = opts.count.toNat := by
          simp [List.length_append]
          omega
        rw [assignIds_length, hmape]
      · rw [assignIds_super_length, List.filter_append]
        have hfr :
            ((List.range (opts.count.toNat - opts.superusers.toNat)).map
                (fun k => mkDraft (emails k) (names k) false)).filter
              (fun d => d.is_superuser) = [] := by
          rw [List.filter_eq_nil_iff]
          intro a ha
          rcases List.mem_map.mp ha with ⟨k, _, rfl⟩
          simp [mkDraft]
        have hfs :
            ((List.range opts.superusers.toNat).map
                (fun k => mkDraft
                  (emails (opts.count.toNat - opts.superusers.toNat + k))
                  (names (opts.count.toNat - opts.superusers.toNat + k))
                  true)).filter (fun d => d.is_superuser) =
              (List.range opts.superusers.toNat).map
                (fun k => mkDraft
                  (emails (opts.count.toNat - opts.superusers.toNat + k))
                  (names (opts.count.toNat - opts.superusers.toNat + k))
                  true) := by
          rw [List.filter_eq_self]
          intro a ha
          rcases List.mem_map.mp ha with ⟨k, _, rfl⟩
          simp [mkDraft]
        rw [hfr, hfs]
        simp
      · intro u hu
        rcases assignIds_mem _ _ u hu with ⟨d, hd, _, hst, hsu, hac, hph⟩
        rcases List.mem_append.mp hd with hdm | hdm <;>
          rcases List.mem_map.mp hdm with ⟨k, _, rfl⟩ <;>
          refine ⟨?_, ?_, ?_⟩ <;>
          simp [hst, hsu, hac, hph, mkDraft]
      · rw [assignIds_map_email]
        have hmape :
            ((List.range (opts.count.toNat - opts.superusers.toNat)).map
                (fun k => mkDraft (emails k) (names k) false) ++
             (List.range opts.superusers.toNat).map
                (fun k => mkDraft
                  (emails (opts.count.toNat - opts.superusers.toNat + k))
                  (names (opts.count.toNat - opts.superusers.toNat + k))
                  true)).map (fun d => d.email) =
              (List.range opts.count.toNat).map emails := by
          conv_rhs =>
            rw [show opts.count.toNat =
              (opts.count.toNat - opts.superusers.toNat) +
                opts.superusers.toNat from by omega]
            rw [List.range_add]
          rw [List.map_append, List.map_append, List.map_map, List.map_map,
            List.map_map]
          simp [Function.comp_def, mkDraft]
        rw [hmape]
        exact List.Nodup.map_on
          (fun x hx y hy hxy =>
            hinj x (List.mem_range.mp hx) y (List.mem_range.mp hy) hxy)
          (List.nodup_range _)
      · intro u hu
        have hmem : u.email ∈
            (assignIds (nextUserId db)
              ((List.range (opts.count.toNat - opts.superusers.toNat)).map
                  (fun k => mkDraft (emails k) (names k) false) ++
               (List.range opts.superusers.toNat).map
                  (fun k => mkDraft
                    (emails (opts.count.toNat - opts.superusers.toNat + k))
                    (names (opts.count.toNat - opts.superusers.toNat + k))
                    true))).map (fun v => v.email) :=
          List.mem_map_of_mem _ hu
        rw [assignIds_map_email] at hmem
        rw [List.map_append, List.map_map, List.map_map] at hmem
        rcases List.mem_append.mp hmem with hm | hm <;>
          rcases List.mem_map.mp hm with ⟨k, hk, hke⟩ <;>
          have hkr := List.mem_range.mp hk <;>
          rw [← hke] <;>
          exact hfresh _ (by omega)

/-- C9, witness: the theorem applied to the fixture store for two users of
which one superuser, against a concrete fresh and injective email stream. -/
theorem generate_users_contract_witness :
    ∃ newUsers,
      generateUsers demoDB { count := 2, superusers := 1, clear := false }
          false (fun i => "u" ++ toString i ++ "@x.com")
          (fun _ => "New User") =
        .ok { demoDB with users := demoDB.users ++ newUsers } ∧
      newUsers.length = 2 ∧
      (newUsers.filter (fun u => u.is_superuser)).length = 1 ∧
      (∀ u ∈ newUsers, u.is_staff = u.is_superuser ∧ u.is_active = true ∧
        u.passwordHash = hashPassword "password123") ∧
      (newUsers.map (fun u => u.email)).Nodup ∧
      (∀ u ∈ newUsers, u.email ∉ demoDB.users.map (fun v => v.email)) :=
  (generate_users_contract demoDB
      { count := 2, superusers := 1, clear := false } false
      (fun i => "u" ++ toString i ++ "@x.com")
      (fun _ => "New User")).2.2.2
    (by decide) (by decide) (by decide) rfl
    (by decide : ∀ i : Nat, i < 2 →
      "u" ++ toString i ++ "@x.com" ∉
        demoDB.users.map (fun u => u.email))
    (by decide : ∀ i : Nat, i < 2 → ∀ j : Nat, j < 2 →
      "u" ++ toString i ++ "@x.com" = "u" ++ toString j ++ "@x.com" → i = j)

end BlogApi
